import Mathlib

/-!
Verification of the freight pooling / quote front-end of the shared
logistics platform.  The definitions below are shallow embeddings of the
TypeScript source: the mock pooling-opportunity data and dashboard filter
(`pooling/page` dashboard module), the pooling card countdown
(`components/pooling/pooling-card.tsx`), the quote calculator and review
step (`components/quote/quote-calculator.tsx`,
`components/shipment/steps/review-step.tsx`), the shipment form schema
(`components/shipment/shipment-form.tsx`) and the API client helper
(`lib/api` module).  Machine reals (JS numbers) are modelled as ℚ and
JS `Math.round` as floor (x + 1/2).
-/

/-- JS `Math.round`: round half up, i.e. `⌊x + 1/2⌋`. -/
def roundHalfUp (q : ℚ) : ℤ := ⌊q + 1 / 2⌋

/-- A city/state pair as it appears in the mock opportunity records. -/
structure CityState where
  city : String
  state : String
deriving DecidableEq, Repr

/-- One member shipment of a mock pooling opportunity. -/
structure PoolShipment where
  id : String
  weight : Int
  ft : Int
  origin : String
  dest : String
deriving DecidableEq, Repr

/-- A pooling opportunity as rendered by the pooling dashboard and card. -/
structure PoolingOpportunity where
  id : String
  matchScore : Int
  shipmentsCount : Int
  origin : CityState
  destination : CityState
  totalSavings : Int
  savingsPercent : Int
  individualCost : Int
  pooledCost : Int
  timeRemaining : Int
  equipment : String
  shipments : List PoolShipment
deriving DecidableEq, Repr

/-- The `mockOpportunities` constant of the pooling dashboard, verbatim. -/
def mockOpportunities : List PoolingOpportunity :=
  [ { id := "POOL-001", matchScore := 92, shipmentsCount := 3,
      origin := ⟨"Los Angeles", "CA"⟩, destination := ⟨"Dallas", "TX"⟩,
      totalSavings := 1240, savingsPercent := 28,
      individualCost := 4428, pooledCost := 3188,
      timeRemaining := 45, equipment := "Dry Van",
      shipments :=
        [ ⟨"SHP-001", 12000, 18, "Los Angeles, CA", "Dallas, TX"⟩,
          ⟨"SHP-002", 8500, 12, "San Diego, CA", "Austin, TX"⟩,
          ⟨"SHP-003", 6200, 10, "Riverside, CA", "Houston, TX"⟩ ] },
    { id := "POOL-002", matchScore := 87, shipmentsCount := 2,
      origin := ⟨"Chicago", "IL"⟩, destination := ⟨"Atlanta", "GA"⟩,
      totalSavings := 890, savingsPercent := 24,
      individualCost := 3708, pooledCost := 2818,
      timeRemaining := 120, equipment := "Reefer",
      shipments :=
        [ ⟨"SHP-004", 15000, 22, "Chicago, IL", "Atlanta, GA"⟩,
          ⟨"SHP-005", 9800, 14, "Milwaukee, WI", "Birmingham, AL"⟩ ] },
    { id := "POOL-003", matchScore := 78, shipmentsCount := 4,
      origin := ⟨"Seattle", "WA"⟩, destination := ⟨"Phoenix", "AZ"⟩,
      totalSavings := 1580, savingsPercent := 32,
      individualCost := 4937, pooledCost := 3357,
      timeRemaining := 30, equipment := "Dry Van",
      shipments :=
        [ ⟨"SHP-006", 7200, 10, "Seattle, WA", "Phoenix, AZ"⟩,
          ⟨"SHP-007", 5400, 8, "Portland, OR", "Tucson, AZ"⟩,
          ⟨"SHP-008", 8900, 12, "Tacoma, WA", "Mesa, AZ"⟩,
          ⟨"SHP-009", 4100, 6, "Spokane, WA", "Scottsdale, AZ"⟩ ] },
    { id := "POOL-004", matchScore := 95, shipmentsCount := 2,
      origin := ⟨"New York", "NY"⟩, destination := ⟨"Miami", "FL"⟩,
      totalSavings := 1120, savingsPercent := 26,
      individualCost := 4307, pooledCost := 3187,
      timeRemaining := 90, equipment := "Dry Van",
      shipments :=
        [ ⟨"SHP-010", 18000, 26, "New York, NY", "Miami, FL"⟩,
          ⟨"SHP-011", 11000, 16, "Newark, NJ", "Fort Lauderdale, FL"⟩ ] },
    { id := "POOL-005", matchScore := 81, shipmentsCount := 3,
      origin := ⟨"Denver", "CO"⟩, destination := ⟨"Las Vegas", "NV"⟩,
      totalSavings := 720, savingsPercent := 22,
      individualCost := 3272, pooledCost := 2552,
      timeRemaining := 60, equipment := "Flatbed",
      shipments :=
        [ ⟨"SHP-012", 20000, 24, "Denver, CO", "Las Vegas, NV"⟩,
          ⟨"SHP-013", 12500, 18, "Boulder, CO", "Henderson, NV"⟩,
          ⟨"SHP-014", 8000, 10, "Colorado Springs, CO", "Reno, NV"⟩ ] },
    { id := "POOL-006", matchScore := 89, shipmentsCount := 2,
      origin := ⟨"Boston", "MA"⟩, destination := ⟨"Philadelphia", "PA"⟩,
      totalSavings := 480, savingsPercent := 18,
      individualCost := 2666, pooledCost := 2186,
      timeRemaining := 180, equipment := "Reefer",
      shipments :=
        [ ⟨"SHP-015", 9500, 14, "Boston, MA", "Philadelphia, PA"⟩,
          ⟨"SHP-016", 7200, 10, "Providence, RI", "Trenton, NJ"⟩ ] } ]

/-- C1: every pooling opportunity surfaced by the dashboard has
`pooledCost ≤ individualCost` — no pool is surfaced at a loss. -/
theorem mockOpportunities_no_loss :
    ∀ o ∈ mockOpportunities, o.pooledCost ≤ o.individualCost := by
  intro o ho
  fin_cases ho <;> decide

/-- C1 witness: the first mock opportunity instantiates the theorem. -/
theorem mockOpportunities_no_loss_witness :
    mockOpportunities.get ⟨0, by decide⟩ ∈ mockOpportunities ∧
      (mockOpportunities.get ⟨0, by decide⟩).pooledCost ≤
        (mockOpportunities.get ⟨0, by decide⟩).individualCost :=
  ⟨List.get_mem _ _ _, mockOpportunities_no_loss _ (List.get_mem _ _ _)⟩

/-- C2: every surfaced opportunity satisfies
`savingsPercent = round((individualCost − pooledCost)/individualCost·100)`,
that percent is ≥ 0, and `totalSavings = individualCost − pooledCost`. -/
theorem mockOpportunities_savings_consistent :
    ∀ o ∈ mockOpportunities,
      (o.savingsPercent : ℤ) =
          roundHalfUp
            (((o.individualCost : ℚ) - (o.pooledCost : ℚ)) /
                (o.individualCost : ℚ) * 100) ∧
        0 ≤ o.savingsPercent ∧
        o.totalSavings = o.individualCost - o.pooledCost := by
  intro o ho
  fin_cases ho <;>
    exact ⟨by norm_num [roundHalfUp, mockOpportunities], by decide, by decide⟩

/-- C2 witness: the first mock opportunity instantiates the theorem. -/
theorem mockOpportunities_savings_consistent_witness :
    mockOpportunities.get ⟨0, by decide⟩ ∈ mockOpportunities ∧
      ((mockOpportunities.get ⟨0, by decide⟩).savingsPercent : ℤ) =
        roundHalfUp
          ((((mockOpportunities.get ⟨0, by decide⟩).individualCost : ℚ) -
                ((mockOpportunities.get ⟨0, by decide⟩).pooledCost : ℚ)) /
              ((mockOpportunities.get ⟨0, by decide⟩).individualCost : ℚ) * 100) :=
  ⟨List.get_mem _ _ _,
    (mockOpportunities_savings_consistent _ (List.get_mem _ _ _)).1⟩

/-- C4: every surfaced opportunity groups 2–4 shipments, and its
`shipmentsCount` field equals the length of its `shipments` array. -/
theorem mockOpportunities_group_size :
    ∀ o ∈ mockOpportunities,
      (o.shipmentsCount = 2 ∨ o.shipmentsCount = 3 ∨ o.shipmentsCount = 4) ∧
        o.shipmentsCount = (o.shipments.length : ℤ) := by
  intro o ho
  fin_cases ho <;> exact ⟨by decide, by decide⟩

/-- C4 witness: the first mock opportunity instantiates the theorem. -/
theorem mockOpportunities_group_size_witness :
    mockOpportunities.get ⟨0, by decide⟩ ∈ mockOpportunities ∧
      (mockOpportunities.get ⟨0, by decide⟩).shipmentsCount =
        ((mockOpportunities.get ⟨0, by decide⟩).shipments.length : ℤ) :=
  ⟨List.get_mem _ _ _,
    (mockOpportunities_group_size _ (List.get_mem _ _ _)).2⟩

/-! ## Quote calculator (`handleCalculate`) and review step quote

`handleCalculate` draws `baseRate = 1800 + Math.random()*800`; we expose the
draw `u ∈ [0,1)` as a parameter (`v` is the pooling-probability draw and `w`
the additional-savings draw).  Each output field is `Math.round`ed. -/

/-- Raw (pre-rounding) base rate of the quote calculator: `1800 + u * 800`. -/
def baseRateRaw (u : ℚ) : ℚ := 1800 + u * 800

/-- Raw fuel surcharge: `baseRate * 0.18`. -/
def fuelSurchargeRaw (u : ℚ) : ℚ := baseRateRaw u * (18 / 100)

/-- Raw pooling discount: `baseRate * 0.22`. -/
def poolingDiscountRaw (u : ℚ) : ℚ := baseRateRaw u * (22 / 100)

/-- Raw total: `baseRate + fuelSurcharge - poolingDiscount`. -/
def totalRaw (u : ℚ) : ℚ := baseRateRaw u + fuelSurchargeRaw u - poolingDiscountRaw u

/-- Raw market average: `total * 1.35`. -/
def marketAverageRaw (u : ℚ) : ℚ := totalRaw u * (135 / 100)

/-- The quote record produced by the quote calculator (rounded fields). -/
structure QuoteCalcResult where
  baseRate : ℤ
  fuelSurcharge : ℤ
  poolingDiscount : ℤ
  total : ℤ
  marketAverage : ℤ
  poolingProbability : ℤ
  additionalSavings : ℤ
deriving DecidableEq, Repr

/-- The `handleCalculate` function of the quote calculator, parameterised by the three
random draws `u, v, w ∈ [0,1)`. -/
def handleCalculate (u v w : ℚ) : QuoteCalcResult where
  baseRate := roundHalfUp (baseRateRaw u)
  fuelSurcharge := roundHalfUp (fuelSurchargeRaw u)
  poolingDiscount := roundHalfUp (poolingDiscountRaw u)
  total := roundHalfUp (totalRaw u)
  marketAverage := roundHalfUp (marketAverageRaw u)
  poolingProbability := roundHalfUp (65 + v * 25)
  additionalSavings := roundHalfUp (baseRateRaw u * (12 / 100) + w * 100)

/-- Raw base rate of the quote in the review step: `850 + r * 400`. -/
def reviewBaseRaw (r : ℚ) : ℚ := 850 + r * 400

/-- The quote record produced by the shipment review step. -/
structure ReviewQuote where
  baseRate : ℤ
  fuelSurcharge : ℤ
  poolingDiscount : ℤ
  finalPrice : ℤ
  marketRate : ℤ
  poolingProbability : ℤ
  potentialSavings : ℤ
deriving DecidableEq, Repr

/-- The simulated quote calculation of the review step, parameterised by its
random draw `r ∈ [0,1)`. -/
def reviewCalculate (r : ℚ) : ReviewQuote where
  baseRate := roundHalfUp (reviewBaseRaw r)
  fuelSurcharge := roundHalfUp (reviewBaseRaw r * (18 / 100))
  poolingDiscount := roundHalfUp (reviewBaseRaw r * (23 / 100))
  finalPrice :=
    roundHalfUp
      (reviewBaseRaw r + reviewBaseRaw r * (18 / 100) - reviewBaseRaw r * (23 / 100))
  marketRate := roundHalfUp (reviewBaseRaw r * (135 / 100))
  poolingProbability := 78
  potentialSavings := roundHalfUp (reviewBaseRaw r * (23 / 100) * (3 / 2))

/-- C3 counterexample: at the draw `u = 0` (base rate 1800) the committed
total is 1728, while the individual price (base + fuel) is 2124: the
pooling discount IS subtracted from the committed total. -/
theorem quote_total_not_individual_price :
    (handleCalculate 0 0 0).total = 1728 ∧
      roundHalfUp (baseRateRaw 0 + fuelSurchargeRaw 0) = 2124 ∧
      (handleCalculate 0 0 0).total ≠
        roundHalfUp (baseRateRaw 0 + fuelSurchargeRaw 0) := by
  refine ⟨?_, ?_, ?_⟩ <;>
    norm_num [handleCalculate, totalRaw, baseRateRaw, fuelSurchargeRaw,
      poolingDiscountRaw, roundHalfUp]

/-- C3 amended: for every draw, the committed total of the quote calculator
equals base rate plus fuel surcharge minus the pooling discount (i.e.
`0.96 × base`), and the final price of the review step likewise equals
base + fuel − discount (`0.95 × base`): the estimated pooling discount is
subtracted up front, not merely advisory. -/
theorem quote_total_subtracts_discount (u v w r : ℚ) :
    (handleCalculate u v w).total = roundHalfUp (baseRateRaw u * (96 / 100)) ∧
      (reviewCalculate r).finalPrice =
        roundHalfUp (reviewBaseRaw r * (95 / 100)) := by
  constructor
  · show roundHalfUp (totalRaw u) = _
    unfold totalRaw fuelSurchargeRaw poolingDiscountRaw
    congr 1
    ring
  · show roundHalfUp _ = _
    congr 1
    ring

/-- Helper bound: round-half-up overshoots by at most 1/2. -/
theorem roundHalfUp_le (q : ℚ) : (roundHalfUp q : ℚ) ≤ q + 1 / 2 :=
  Int.floor_le _

/-- Helper bound: round-half-up undershoots by less than 1/2. -/
theorem roundHalfUp_gt (q : ℚ) : q - 1 / 2 < (roundHalfUp q : ℚ) := by
  have h := Int.lt_floor_add_one (q + 1 / 2)
  unfold roundHalfUp
  linarith

/-- C6 counterexample: money is NOT computed in integer cents with a single
final rounding.  At the reachable draw `u = 401/1600` (base rate $2000.50)
the independently rounded fields disagree with the rounded total
(2001 + 360 − 440 = 1921 ≠ 1920), and at the reachable draw `u = 1/160000`
(base rate $1800.005) the intermediate fuel surcharge ($324.0009) is not a
whole number of cents. -/
theorem quote_money_not_cents_with_single_rounding :
    ((0 : ℚ) ≤ 401 / 1600 ∧ (401 : ℚ) / 1600 < 1) ∧
      (handleCalculate (401 / 1600) 0 0).baseRate +
          (handleCalculate (401 / 1600) 0 0).fuelSurcharge -
          (handleCalculate (401 / 1600) 0 0).poolingDiscount ≠
        (handleCalculate (401 / 1600) 0 0).total ∧
      ((0 : ℚ) ≤ 1 / 160000 ∧ (1 : ℚ) / 160000 < 1) ∧
      ¬ ∃ n : ℤ, 100 * fuelSurchargeRaw (1 / 160000) = (n : ℚ) := by
  refine ⟨⟨by norm_num, by norm_num⟩, ?_, ⟨by norm_num, by norm_num⟩, ?_⟩
  · norm_num [handleCalculate, totalRaw, baseRateRaw, fuelSurchargeRaw,
      poolingDiscountRaw, roundHalfUp]
  · rintro ⟨n, hn⟩
    have h1 : 100 * fuelSurchargeRaw (1 / 160000) = 3240009 / 100 := by
      norm_num [fuelSurchargeRaw, baseRateRaw]
    have h2 : (100 : ℚ) * n = 3240009 := by
      rw [h1] at hn
      rw [← hn]
      ring
    have h3 : (100 : ℤ) * n = 3240009 := by exact_mod_cast h2
    omega

/-- Helper: independently rounding three components and their exact
combination `b + f - d` yields a breakdown that differs from the rounded
combination by at most 1. -/
theorem roundHalfUp_sum_bound (b f d : ℚ) :
    |roundHalfUp b + roundHalfUp f - roundHalfUp d - roundHalfUp (b + f - d)| ≤ 1 := by
  have h1 := roundHalfUp_le b
  have h2 := roundHalfUp_gt b
  have h3 := roundHalfUp_le f
  have h4 := roundHalfUp_gt f
  have h5 := roundHalfUp_le d
  have h6 := roundHalfUp_gt d
  have h7 := roundHalfUp_le (b + f - d)
  have h8 := roundHalfUp_gt (b + f - d)
  have hlo : (-2 : ℤ) < roundHalfUp b + roundHalfUp f - roundHalfUp d -
      roundHalfUp (b + f - d) := by
    have hq : (-2 : ℚ) < ((roundHalfUp b : ℚ) + (roundHalfUp f : ℚ) -
        (roundHalfUp d : ℚ) - (roundHalfUp (b + f - d) : ℚ)) := by
      linarith
    exact_mod_cast hq
  have hhi : roundHalfUp b + roundHalfUp f - roundHalfUp d -
      roundHalfUp (b + f - d) < 2 := by
    have hq : ((roundHalfUp b : ℚ) + (roundHalfUp f : ℚ) -
        (roundHalfUp d : ℚ) - (roundHalfUp (b + f - d) : ℚ)) < 2 := by
      linarith
    exact_mod_cast hq
  rw [abs_le]
  omega

/-- C6 amended: money is computed in fractional dollars and each quote field
of both the quote calculator and the review step is independently rounded
half-up to whole dollars; consequently the rounded breakdown can disagree
with the rounded total (respectively the rounded final price), but by at
most one dollar. -/
theorem quote_breakdown_discrepancy_bounded (u v w r : ℚ) :
    |(handleCalculate u v w).baseRate + (handleCalculate u v w).fuelSurcharge -
          (handleCalculate u v w).poolingDiscount -
          (handleCalculate u v w).total| ≤ 1 ∧
      |(reviewCalculate r).baseRate + (reviewCalculate r).fuelSurcharge -
          (reviewCalculate r).poolingDiscount -
          (reviewCalculate r).finalPrice| ≤ 1 := by
  constructor
  · show |roundHalfUp (baseRateRaw u) + roundHalfUp (fuelSurchargeRaw u) -
        roundHalfUp (poolingDiscountRaw u) - roundHalfUp (totalRaw u)| ≤ 1
    have ht : totalRaw u =
        baseRateRaw u + fuelSurchargeRaw u - poolingDiscountRaw u := rfl
    rw [ht]
    exact roundHalfUp_sum_bound _ _ _
  · exact roundHalfUp_sum_bound (reviewBaseRaw r) (reviewBaseRaw r * (18 / 100))
      (reviewBaseRaw r * (23 / 100))

/-! ## Pooling card countdown -/

/-- One tick of the pooling card countdown:
`setTimeLeft((prev) => Math.max(0, prev - 1))`. -/
def tickTime (t : ℤ) : ℤ := max 0 (t - 1)

/-- C9: the countdown is never negative after a tick, is non-increasing from
any non-negative value, and from a non-negative start every number of ticks
leaves it non-negative. -/
theorem pooling_card_countdown_safe (t : ℤ) (n : ℕ) :
    0 ≤ tickTime t ∧ (0 ≤ t → tickTime t ≤ t) ∧ (0 ≤ t → 0 ≤ tickTime^[n] t) := by
  refine ⟨le_max_left _ _, fun h => ?_, fun h => ?_⟩
  · simp only [tickTime]
    omega
  · induction n generalizing t with
    | zero => simpa using h
    | succ m ih =>
      rw [Function.iterate_succ_apply]
      exact ih (tickTime t) (le_max_left _ _)

/-- C9 witness: from the 45 minutes of the first mock opportunity, one tick stays
within bounds and three ticks stay non-negative. -/
theorem pooling_card_countdown_safe_witness :
    0 ≤ tickTime 45 ∧ tickTime 45 ≤ 45 ∧ 0 ≤ tickTime^[3] 45 :=
  ⟨(pooling_card_countdown_safe 45 3).1,
    (pooling_card_countdown_safe 45 3).2.1 (by norm_num),
    (pooling_card_countdown_safe 45 3).2.2 (by norm_num)⟩

/-! ## Quote acceptance -/

/-- Outcome of a quote acceptance call. -/
inductive QuoteAcceptOutcome where
  | accepted
  | expired
deriving DecidableEq, Repr

/-- Modelled from the spec: the backend handler behind
`POST /quotes/{id}/accept` is not part of this repository (the source tree
only contains the API client wrapper `api.quotes.accept`); per the spec,
acceptance strictly before the `valid_until` deadline of the quote succeeds and
otherwise fails with the `Expired` condition. -/
def acceptQuote (now validUntil : ℕ) : QuoteAcceptOutcome :=
  if now < validUntil then .accepted else .expired

/-- C5: accepting a quote strictly before `valid_until` succeeds; accepting
at or after `valid_until` fails with `Expired`. -/
theorem quote_accept_expiry (now validUntil : ℕ) :
    (now < validUntil → acceptQuote now validUntil = QuoteAcceptOutcome.accepted) ∧
      (validUntil ≤ now → acceptQuote now validUntil = QuoteAcceptOutcome.expired) := by
  constructor <;> intro h
  · unfold acceptQuote
    rw [if_pos h]
  · unfold acceptQuote
    rw [if_neg (by omega)]

/-- C5 witness: acceptance at time 3 against deadline 5 succeeds; at time 5
(the deadline itself) it is expired. -/
theorem quote_accept_expiry_witness :
    acceptQuote 3 5 = QuoteAcceptOutcome.accepted ∧
      acceptQuote 5 5 = QuoteAcceptOutcome.expired :=
  ⟨(quote_accept_expiry 3 5).1 (by norm_num), (quote_accept_expiry 5 5).2 (by norm_num)⟩

/-! ## Dashboard opportunity filter -/

/-- Whether `p` occurs at the start of `s` (character-list version of a JS
string comparison). -/
def chStart (p s : List Char) : Bool :=
  match p, s with
  | [], _ => true
  | _ :: _, [] => false
  | a :: p', b :: s' => a == b && chStart p' s'

/-- Whether `p` occurs contiguously somewhere in `s`. -/
def chSub (p : List Char) : List Char → Bool
  | [] => p.isEmpty
  | b :: s' => chStart p (b :: s') || chSub p s'

/-- JS `s.includes(q)`: `q` is a contiguous substring of `s`. -/
def strIncludes (s q : String) : Bool := chSub q.data s.data

/-- The predicate of `PoolingDashboard.filteredOpportunities`, verbatim from
the `mockOpportunities.filter` callback of the dashboard. -/
def oppMatches (searchQuery originState destState equipment : String)
    (opp : PoolingOpportunity) : Bool :=
  if originState != "all" && opp.origin.state != originState then false
  else if destState != "all" && opp.destination.state != destState then false
  else if equipment != "all" && opp.equipment != equipment then false
  else if searchQuery != "" then
    let q := searchQuery.toLower
    strIncludes opp.origin.city.toLower q ||
      strIncludes opp.destination.city.toLower q ||
      strIncludes opp.id.toLower q
  else true

/-- The `filteredOpportunities` computation of the dashboard, over an arbitrary
opportunity list and the four filter inputs. -/
def filteredOpportunities (opps : List PoolingOpportunity)
    (searchQuery originState destState equipment : String) :
    List PoolingOpportunity :=
  opps.filter (oppMatches searchQuery originState destState equipment)

/-- C7: the opportunity filter is deterministic (same inputs give the same
list), its output is a subsequence of the input list (same relative order),
and it is idempotent (filtering the output again changes nothing). -/
theorem filteredOpportunities_deterministic_sublist
    (opps : List PoolingOpportunity) (q os ds e : String) :
    filteredOpportunities opps q os ds e = filteredOpportunities opps q os ds e ∧
      List.Sublist (filteredOpportunities opps q os ds e) opps ∧
      filteredOpportunities (filteredOpportunities opps q os ds e) q os ds e =
        filteredOpportunities opps q os ds e :=
  ⟨rfl, List.filter_sublist _,
    List.filter_eq_self.mpr fun _ ha => List.of_mem_filter ha⟩

/-! ## Shipment form schema -/

/-- The data collected by the shipment form wizard (`ShipmentFormData`). -/
structure ShipmentFormData where
  originAddress : String
  originCity : String
  originState : String
  originZip : String
  pickupDate : Int
  pickupTimeFrom : String
  pickupTimeTo : String
  originContact : String
  originPhone : String
  originInstructions : Option String
  destAddress : String
  destCity : String
  destState : String
  destZip : String
  deliveryDate : Int
  deliveryTimeFrom : String
  deliveryTimeTo : String
  destContact : String
  destPhone : String
  appointmentRequired : Bool
  liftgateRequired : Bool
  destInstructions : Option String
  weight : ℚ
  length : ℚ
  width : ℚ
  height : ℚ
  linearFeet : ℚ
  palletCount : ℚ
  equipmentType : String
  commodityType : String
  stackable : Bool
  hazmat : Bool
deriving DecidableEq, Repr

/-- The zod `shipmentSchema` validation: string minimum lengths, numeric
minimums, and `linearFeet` between 1 and 53.  Dates, booleans, and optional
instruction fields carry no constraint beyond presence. -/
def shipmentSchemaCheck (d : ShipmentFormData) : Bool :=
  decide (1 ≤ d.originAddress.length) && decide (1 ≤ d.originCity.length) &&
    decide (1 ≤ d.originState.length) && decide (5 ≤ d.originZip.length) &&
    decide (1 ≤ d.pickupTimeFrom.length) && decide (1 ≤ d.pickupTimeTo.length) &&
    decide (1 ≤ d.originContact.length) && decide (10 ≤ d.originPhone.length) &&
    decide (1 ≤ d.destAddress.length) && decide (1 ≤ d.destCity.length) &&
    decide (1 ≤ d.destState.length) && decide (5 ≤ d.destZip.length) &&
    decide (1 ≤ d.deliveryTimeFrom.length) && decide (1 ≤ d.deliveryTimeTo.length) &&
    decide (1 ≤ d.destContact.length) && decide (10 ≤ d.destPhone.length) &&
    decide ((1 : ℚ) ≤ d.weight) && decide ((1 : ℚ) ≤ d.length) &&
    decide ((1 : ℚ) ≤ d.width) && decide ((1 : ℚ) ≤ d.height) &&
    decide ((1 : ℚ) ≤ d.linearFeet) && decide (d.linearFeet ≤ (53 : ℚ)) &&
    decide ((1 : ℚ) ≤ d.palletCount) && decide (1 ≤ d.equipmentType.length) &&
    decide (1 ≤ d.commodityType.length)

/-- Modelled from the spec: the Slider UI component used for linear feet is
third-party code not in this repository; it keeps its value within the
configured bounds (the quote calculator and freight step both configure
`min 1`, `max 53`). -/
def sliderClamp (lo hi v : ℚ) : ℚ := max lo (min hi v)

/-- C8: schema validation succeeds only when `1 ≤ linearFeet ≤ 53`, and the
linear-feet slider of the quote calculator, configured with min 1 and max 53,
only yields values in `[1, 53]`. -/
theorem linear_feet_bounds :
    (∀ d : ShipmentFormData, shipmentSchemaCheck d = true →
        1 ≤ d.linearFeet ∧ d.linearFeet ≤ 53) ∧
      (∀ v : ℚ, 1 ≤ sliderClamp 1 53 v ∧ sliderClamp 1 53 v ≤ 53) := by
  constructor
  · intro d h
    simp only [shipmentSchemaCheck, Bool.and_eq_true, decide_eq_true_eq] at h
    exact ⟨h.1.1.1.1.2, h.1.1.1.2⟩
  · intro v
    refine ⟨le_max_left _ _, max_le (by norm_num) (min_le_left _ _)⟩

/-- A concrete, valid shipment form submission. -/
def sampleForm : ShipmentFormData where
  originAddress := "123 Market St"
  originCity := "Los Angeles"
  originState := "CA"
  originZip := "90001"
  pickupDate := 0
  pickupTimeFrom := "08:00"
  pickupTimeTo := "12:00"
  originContact := "Alex Doe"
  originPhone := "2135550000"
  originInstructions := none
  destAddress := "456 Elm St"
  destCity := "Dallas"
  destState := "TX"
  destZip := "75201"
  deliveryDate := 0
  deliveryTimeFrom := "08:00"
  deliveryTimeTo := "17:00"
  destContact := "Sam Roe"
  destPhone := "2145550000"
  appointmentRequired := false
  liftgateRequired := false
  destInstructions := none
  weight := 12000
  length := 48
  width := 40
  height := 60
  linearFeet := 18
  palletCount := 10
  equipmentType := "dry-van"
  commodityType := "general"
  stackable := false
  hazmat := false

/-- C8 witness: a concrete valid submission passes the schema, its linear
feet lie in `[1, 53]`, and a concrete slider value is clamped into range. -/
theorem linear_feet_bounds_witness :
    shipmentSchemaCheck sampleForm = true ∧
      (1 ≤ sampleForm.linearFeet ∧ sampleForm.linearFeet ≤ 53) ∧
      (1 ≤ sliderClamp 1 53 20 ∧ sliderClamp 1 53 20 ≤ 53) := by
  have hc : shipmentSchemaCheck sampleForm = true := by
    simp [shipmentSchemaCheck, sampleForm]
    decide
  exact ⟨hc, linear_feet_bounds.1 sampleForm hc, linear_feet_bounds.2 20⟩

/-! ## API client helper `fetchAPI` -/

/-- A parsed JSON response body; `errorField` is the value of its `error`
key when present. -/
structure JsonBody where
  errorField : Option String
deriving DecidableEq, Repr

/-- An HTTP response as observed by `fetchAPI`: the `ok` flag, the numeric
status, and the JSON body (`none` when the body fails to parse). -/
structure HttpResponse where
  ok : Bool
  status : Nat
  jsonBody : Option JsonBody
deriving DecidableEq, Repr

/-- The message thrown on a non-ok response:
`error.error || API Error: status`, where a failed body parse is replaced
by `{ error: Unknown error }` and a missing or empty (falsy) `error` field
falls back to the status message. -/
def apiErrorMessage (r : HttpResponse) : String :=
  let errField :=
    match r.jsonBody with
    | some j => j.errorField
    | none => some "Unknown error"
  match errField with
  | some s => if s = "" then "API Error: " ++ toString r.status else s
  | none => "API Error: " ++ toString r.status

/-- The `fetchAPI` helper: on a non-ok response it throws; on an ok response
it returns `response.json()`, whose rejection (unparsable body) propagates
as an exception. -/
def fetchAPI (r : HttpResponse) : Except String JsonBody :=
  if r.ok then
    match r.jsonBody with
    | some j => Except.ok j
    | none => Except.error "Unexpected end of JSON input"
  else
    Except.error (apiErrorMessage r)

/-- C10 counterexample: an ok response whose body fails to parse makes
`fetchAPI` throw even though the response is ok, so "raises iff not ok" is
false. -/
theorem fetchAPI_raises_despite_ok :
    fetchAPI ⟨true, 200, none⟩ = Except.error "Unexpected end of JSON input" ∧
      (⟨true, 200, none⟩ : HttpResponse).ok = true :=
  ⟨rfl, rfl⟩

/-- C10 amended: `fetchAPI` throws iff the response is not ok or the ok
body of the ok response fails to parse; an ok response with a parsable body returns
that body, and every non-ok response throws the server-provided message or
its fallback. -/
theorem fetchAPI_error_iff (r : HttpResponse) :
    ((∃ e, fetchAPI r = Except.error e) ↔ (r.ok = false ∨ r.jsonBody = none)) ∧
      (∀ j, r.ok = true → r.jsonBody = some j → fetchAPI r = Except.ok j) ∧
      (r.ok = false → fetchAPI r = Except.error (apiErrorMessage r)) := by
  rcases r with ⟨ok, status, body⟩
  cases ok <;> cases body <;> simp [fetchAPI]

/-- C10 witness: a parsable ok response returns its body; a non-ok response
throws the computed message. -/
theorem fetchAPI_error_iff_witness :
    fetchAPI ⟨true, 200, some ⟨none⟩⟩ = Except.ok ⟨none⟩ ∧
      fetchAPI ⟨false, 404, none⟩ =
        Except.error (apiErrorMessage ⟨false, 404, none⟩) :=
  ⟨(fetchAPI_error_iff _).2.1 _ rfl rfl, (fetchAPI_error_iff _).2.2 rfl⟩
